import Mathlib

/-!
Shallow embedding of the VeilPlay backend's playback-access broker:
the playback-token utilities (`Backend/app/utils/video_token.py`),
the stream-resolution cache and the video endpoints
(`Backend/app/routes/video.py`), and the video model
(`Backend/app/models/video.py`).

Machine integers do not occur; all timestamps are seconds modelled as `Nat`
(`datetime.utcnow()` / `time.time()` values).  Fallible code returns
`Option` / explicit outcome types.
-/

namespace VeilPlay

/-! ## Token model (`Backend/app/utils/video_token.py`)

A JWT is a signed, self-contained blob.  We model the wire string
abstractly: a blob is either not a well-formed JWT at all (`malformed`),
or a payload together with the secret that produced its HMAC signature
(`signed`).  PyJWT's `jwt.decode(token, secret, algorithms=[...])`
succeeds exactly when the signature checks out under `secret` and the
`exp` claim has not passed; it raises `ExpiredSignatureError` when
`exp <= now` and `InvalidTokenError` otherwise (bad encoding or bad
signature). -/

/-- The claims carried by a playback token, in source order:
`video_id`, `user_id`, `type`, `iat`, `exp`. -/
structure Payload where
  video_id : String
  user_id : String
  type : String
  iat : Nat
  exp : Nat
deriving DecidableEq

/-- A token string: either garbage, or a payload HMAC-signed with a secret. -/
inductive TokenBlob where
  | malformed (raw : String)
  | signed (payload : Payload) (secret : String)
deriving DecidableEq

/-- Outcome of `jwt.decode`. -/
inductive JwtOutcome where
  | ok (payload : Payload)
  | expiredSignature
  | invalidToken
deriving DecidableEq

/-- `jwt.decode(token, secret, algorithms=['HS256'])`: signature check first,
then the `exp` claim (expired when `exp <= now`, valid while `now < exp`). -/
def jwt_decode (token : TokenBlob) (secret : String) (now : Nat) : JwtOutcome :=
  match token with
  | .malformed _ => .invalidToken
  | .signed p s =>
      if s = secret then
        if p.exp ≤ now then .expiredSignature else .ok p
      else .invalidToken

/-- `get_video_secret`: `os.getenv('JWT_SECRET_KEY', 'video-secret-key') + '-video'`.
`env` is the value of the `JWT_SECRET_KEY` environment variable. -/
def get_video_secret (env : Option String) : String :=
  env.getD "video-secret-key" ++ "-video"

/-- The secret used by `verify_playback_token_without_user` in
`routes/video.py`: `os.getenv('JWT_SECRET_KEY', 'jwt-secret-key') + '-video'`. -/
def without_user_secret (env : Option String) : String :=
  env.getD "jwt-secret-key" ++ "-video"

/-- `generate_playback_token(video_id, user_id)`: payload
`{video_id, user_id, type: 'playback', iat: now, exp: now + 1 hour}`
signed with `get_video_secret()`. -/
def generate_playback_token (video_id user_id : String) (env : Option String)
    (now : Nat) : TokenBlob :=
  .signed { video_id := video_id, user_id := user_id, type := "playback",
            iat := now, exp := now + 3600 } (get_video_secret env)

/-- `verify_playback_token(token, video_id, user_id)`: decode with
`get_video_secret()`, then check `type`, `video_id`, `user_id` in that
order; every failure returns `None`. -/
def verify_playback_token (token : TokenBlob) (video_id user_id : String)
    (env : Option String) (now : Nat) : Option Payload :=
  match jwt_decode token (get_video_secret env) now with
  | .ok payload =>
      if payload.type ≠ "playback" then none
      else if payload.video_id ≠ video_id then none
      else if payload.user_id ≠ user_id then none
      else some payload
  | .expiredSignature => none
  | .invalidToken => none

/-- `verify_playback_token_without_user(token, video_id)` from
`routes/video.py`: decode with its own secret (note the different
default), then check `type` and `video_id`; every failure returns `None`. -/
def verify_playback_token_without_user (token : TokenBlob) (video_id : String)
    (env : Option String) (now : Nat) : Option Payload :=
  match jwt_decode token (without_user_secret env) now with
  | .ok payload =>
      if payload.type ≠ "playback" then none
      else if payload.video_id ≠ video_id then none
      else some payload
  | .expiredSignature => none
  | .invalidToken => none

/-! ## Spec-side verification classifier (for the refinement claim C4) -/

/-- The spec's error taxonomy for token verification. -/
inductive VerifyError where
  | tokenMalformed
  | badSignature
  | expired
  | wrongKind
  | resourceMismatch
  | subjectMismatch
deriving DecidableEq

/-- Modelled from the spec: `verify(token_string, expected_resource_id,
expected_subject_id?)` fails with `Malformed` if the encoding is invalid,
`BadSignature` if the signature check fails, `Expired` if
`now >= expires_at`, `WrongKind` if the discriminator mismatches,
`ResourceMismatch` if `resource_id` differs, `SubjectMismatch` if a
subject was supplied and differs.  This is the spec's wording, kept
separate from the source functions above so the two can be compared. -/
def verify_spec (token : TokenBlob) (secret : String)
    (expected_resource_id : String) (expected_subject_id : Option String)
    (now : Nat) : Except VerifyError Payload :=
  match token with
  | .malformed _ => .error .tokenMalformed
  | .signed p s =>
      if s ≠ secret then .error .badSignature
      else if p.exp ≤ now then .error .expired
      else if p.type ≠ "playback" then .error .wrongKind
      else if p.video_id ≠ expected_resource_id then .error .resourceMismatch
      else
        match expected_subject_id with
        | some uid => if p.user_id ≠ uid then .error .subjectMismatch else .ok p
        | none => .ok p

/-- Forget the error kind of a classified verification result. -/
def dropErrorKind : Except VerifyError Payload → Option Payload
  | .ok p => some p
  | .error _ => none

/-! ## Stream-resolution cache (`Backend/app/routes/video.py`, module level)

`_stream_cache` is a dict `youtube_id -> {url, headers, expires_at}`
guarded by `_cache_lock`; we model it as an association list.  The
sequential functions below are the bodies of the critical sections; the
interleaved two-thread semantics for the concurrency claim comes later. -/

abbrev Headers := List (String × String)

/-- One `_stream_cache` entry: `{'url': ..., 'headers': ..., 'expires_at': ...}`. -/
structure CacheEntry where
  url : String
  headers : Headers
  expires_at : Nat
deriving DecidableEq

abbrev Cache := List (String × CacheEntry)

/-- `CACHE_DURATION = 3600` (one hour). -/
def CACHE_DURATION : Nat := 3600

/-- `del _stream_cache[youtube_id]`. -/
def eraseKey (cache : Cache) (k : String) : Cache :=
  cache.filter (fun p => p.1 != k)

/-- `_get_cached_stream_data(youtube_id)`: return the entry while
`expires_at > time.time()`, otherwise delete it and return `None`.
The second component is the cache after the call. -/
def _get_cached_stream_data (cache : Cache) (now : Nat) (youtube_id : String) :
    Option CacheEntry × Cache :=
  match cache.lookup youtube_id with
  | some e => if e.expires_at > now then (some e, cache) else (none, eraseKey cache youtube_id)
  | none => (none, cache)

/-- `_cache_stream_data(youtube_id, url, headers)`: store
`{url, headers, expires_at: time.time() + CACHE_DURATION}` under the key
(dict assignment replaces any previous entry). -/
def _cache_stream_data (cache : Cache) (now : Nat) (youtube_id url : String)
    (headers : Headers) : Cache :=
  (youtube_id, { url := url, headers := headers, expires_at := now + CACHE_DURATION }) ::
    eraseKey cache youtube_id

/-! ## The external resolver (yt-dlp) and `_extract_stream_data` -/

/-- One element of `info['formats']`: the fields `_extract_stream_data`
reads (`url`, `ext`, `http_headers`); `none` models an absent key. -/
structure FormatInfo where
  url : Option String
  ext : String
  http_headers : Option Headers
deriving DecidableEq

/-- The fields of `ydl.extract_info(...)` that `_extract_stream_data`
reads: `url`, `http_headers` (read with default `{}`), `formats`
(read with default `[]`). -/
structure ExtractInfo where
  url : Option String
  http_headers : Headers
  formats : List FormatInfo
deriving DecidableEq

/-- The yt-dlp extraction as an opaque collaborator: `none` models the
extraction raising an exception. -/
abbrev Resolver := String → Option ExtractInfo

/-- Python truthiness of `info.get('url')`: false for an absent key and
for the empty string. -/
def truthyStr : Option String → Bool
  | none => false
  | some s => s != ""

/-- The two fallback loops over `reversed(formats)`: first a format with a
truthy `url` and `ext == 'mp4'`, then any format with a truthy `url`;
headers are `fmt.get('http_headers', http_headers)`. -/
def pickFormat (info : ExtractInfo) : Option (String × Headers) :=
  match info.formats.reverse.find? (fun f => truthyStr f.url && f.ext == "mp4") with
  | some f => some (f.url.getD "", f.http_headers.getD info.http_headers)
  | none =>
      match info.formats.reverse.find? (fun f => truthyStr f.url) with
      | some f => some (f.url.getD "", f.http_headers.getD info.http_headers)
      | none => none

/-- The pure locator selection inside `_extract_stream_data`: the
top-level `info.get('url')` when truthy, else the format fallbacks. -/
def resolveFromInfo (info : ExtractInfo) : Option (String × Headers) :=
  if truthyStr info.url then some (info.url.getD "", info.http_headers)
  else pickFormat info

/-- `_extract_stream_data(youtube_id)`: cache lookup first; on a miss run
the resolver, cache any found locator, and return it; on resolver failure
(exception, caught by the surrounding `try`) or no usable URL return
`(None, None)` without caching.  The second component is the cache after
the call. -/
def _extract_stream_data (resolver : Resolver) (cache : Cache) (now : Nat)
    (youtube_id : String) : Option (String × Headers) × Cache :=
  match _get_cached_stream_data cache now youtube_id with
  | (some e, cache1) => (some (e.url, e.headers), cache1)
  | (none, cache1) =>
      match resolver youtube_id with
      | none => (none, cache1)
      | some info =>
          match resolveFromInfo info with
          | some (u, h) => (some (u, h), _cache_stream_data cache1 now youtube_id u h)
          | none => (none, cache1)


/-! ## Video model (`Backend/app/models/video.py`) and endpoints -/

/-- The fields of a stored video that the routes read. -/
structure Video where
  oid : String
  title : String
  description : String
  youtube_id : String
  thumbnail_url : String
  is_active : Bool
deriving DecidableEq

/-- The `videos` collection, keyed by the canonical (lower-case) 24-hex
string form of the document's `ObjectId`. -/
abbrev VideoDb := List (String × Video)

/-- Hexadecimal digit, as accepted by `bson.ObjectId`. -/
def isHexChar (c : Char) : Bool :=
  c.isDigit || ('a' ≤ c && c ≤ 'f') || ('A' ≤ c && c ≤ 'F')

/-- A string `bson.ObjectId(s)` accepts: exactly 24 hexadecimal characters;
anything else raises `InvalidId`. -/
def isValidObjectId (s : String) : Bool :=
  s.length == 24 && s.toList.all isHexChar

/-- `Video.find_by_id(video_id)`: `ObjectId(video_id)` inside
`try/except Exception: return None`, then `find_one({'_id': ...})`.
The db is keyed by the hex string itself; `ObjectId`'s normalization of
letter case is immaterial to the claims and elided. -/
def find_by_id (db : VideoDb) (video_id : String) : Option Video :=
  if isValidObjectId video_id then db.lookup video_id else none

/-! ### The player endpoint (`video_player` and `_error_html`) -/

def playerHtml1 : String :=
  "\n<!DOCTYPE html>\n<html lang=\"en\">\n<head>\n    <meta charset=\"UTF-8\">\n    <meta name=\"viewport\" content=\"width=device-width, initial-scale=1.0, maximum-scale=1.0, user-scalable=no\">\n    <title>"

def playerHtml2a : String :=
  "</title>\n    <style>\n        * \x7b\n            margin: 0;\n            padding: 0;\n            box-sizing: border-box;\n        \x7d\n        html, body \x7b\n            width: 100%;\n            height: 100%;\n            background-color: #000;\n            overflow: hidden;\n            touch-action: manipulation;\n        \x7d\n        .player-wrapper \x7b\n            position: relative;\n            width: 100%;\n            height: 100%;\n        \x7d\n        #player \x7b\n            position: absolute;\n            top: 0;\n            left: 0;\n            width: 100%;\n            height: 100%;\n        \x7d\n        /* Custom controls overlay */\n        .controls \x7b\n            position: absolute;\n            bottom: 0;\n            left: 0;\n            right: 0;\n            padding: 15px;\n            background: linear-gradient(transparent, rgba(0,0,0,0.8));\n            z-index: 100;\n            display: flex;\n            align-items: center;\n            gap: 15px;\n        \x7d\n        .play-btn \x7b\n            width: 44px;\n            height: 44px;\n            background: rgba(255,255,255,0.2);\n            border: none;\n            border-radius: 50%;\n            color: white;\n            font-size: 18px;\n            cursor: pointer;\n            display: flex;\n            align-items: center;\n            justify-content: center;\n        \x7d\n        .progress-container \x7b\n            flex: 1;\n            height: 6px;\n            background: rgba(255,255,255,0.3);\n            border-radius: 3px;\n            cursor: pointer;\n        \x7d\n        .progress-bar \x7b\n            height: 100%;\n            background: #ff0000;\n            border-radius: 3px;\n            width: 0%;\n            transition: width 0.1s;\n        \x7d\n        .time \x7b\n            color: white;\n            font-size: 12px;\n            font-family: Arial, sans-serif;\n            min-width: 80px;\n            text-align: right;\n        \x7d\n        .mute-btn \x7b\n            width: 40px;\n            height: 40px;\n            background: transparent;\n            border: none;\n            color: white;\n            font-size: 20px;\n            cursor: pointer;\n        \x7d\n        /* Tap area for play/pause */\n        .tap-area \x7b\n            position: absolute;\n            top: 0;\n            left: 0;\n            right: 0;\n            bottom: 60px;\n            z-index: 50;\n        \x7d\n        /* Center play button */\n        .center-play \x7b\n            position: absolute;\n            top: 50%;\n            left: 50%;\n            transform: translate(-50%, -50%);\n            width: 70px;\n            height: 70px;\n            background: rgba(0,0,0,0.6);\n            border-radius: 50%;\n            display: flex;\n            align-items: center;\n            justify-content: center;\n            font-size: 30px;\n            color: white;\n            z-index: 60;\n            opacity: 0;\n            transition: opacity 0.2s;\n            pointer-events: none;\n        \x7d\n        .center-play.visible \x7b\n            opacity: 1;\n        \x7d\n    </style>\n</head>\n<body>\n    <div class=\"player-wrapper\">\n        <div id=\"player\"></div>\n        \n        <!-- Tap area for play/pause -->\n        <div class=\"tap-area\" id=\"tapArea\"></div>\n        \n        <!-- Center play indicator -->\n        <div class=\"center-play\" id=\"centerPlay\">\u201a\u00f1\u2202</div>\n        \n        <!-- Custom controls -->\n        <div class=\"controls\">\n            <button class=\"play-btn\" id=\"playBtn\">\u201a\u00f1\u2202</button>\n            <div class=\"progress-container\" id=\"progressContainer\">\n                <div class=\"progress-bar\" id=\"progressBar\"></div>\n            </div>\n            <span class=\"time\" id=\"timeDisplay\">0:00 / 0:00</span>\n            <button class=\"mute-btn\" id=\"muteBtn\">\uf8ff\u00fc\u00ee\u00e4</button>\n        </div>\n    </div>\n\n    <script>\n        // Load YouTube IFrame API\n        var tag = document.createElement(\x27script\x27);\n        tag.src = \""

def upstreamIframeApiUrl : String :=
  "https://www.youtube.com/iframe_api"

def playerHtml2b : String :=
  "\";\n        var firstScriptTag = document.getElementsByTagName(\x27script\x27)[0];\n        firstScriptTag.parentNode.insertBefore(tag, firstScriptTag);\n\n        var player;\n        var isPlaying = false;\n        var isMuted = false;\n        var updateInterval;\n\n        function onYouTubeIframeAPIReady() \x7b\n            player = new YT.Player(\x27player\x27, \x7b\n                videoId: \x27"

def playerHtml3 : String :=
  "\x27,\n                playerVars: \x7b\n                    \x27autoplay\x27: 1,\n                    \x27controls\x27: 0,\n                    \x27rel\x27: 0,\n                    \x27modestbranding\x27: 1,\n                    \x27playsinline\x27: 1,\n                    \x27fs\x27: 0,\n                    \x27iv_load_policy\x27: 3,\n                    \x27disablekb\x27: 1,\n                    \x27origin\x27: window.location.origin\n                \x7d,\n                events: \x7b\n                    \x27onReady\x27: onPlayerReady,\n                    \x27onStateChange\x27: onPlayerStateChange\n                \x7d\n            \x7d);\n        \x7d\n\n        function onPlayerReady(event) \x7b\n            event.target.playVideo();\n            startProgressUpdate();\n        \x7d\n\n        function onPlayerStateChange(event) \x7b\n            isPlaying = (event.data === YT.PlayerState.PLAYING);\n            updatePlayButton();\n        \x7d\n\n        function updatePlayButton() \x7b\n            document.getElementById(\x27playBtn\x27).textContent = isPlaying ? \x27\u201a\u00e8\u220f\x27 : \x27\u201a\u00f1\u2202\x27;\n            document.getElementById(\x27centerPlay\x27).textContent = isPlaying ? \x27\u201a\u00e8\u220f\x27 : \x27\u201a\u00f1\u2202\x27;\n        \x7d\n\n        function togglePlay() \x7b\n            if (isPlaying) \x7b\n                player.pauseVideo();\n            \x7d else \x7b\n                player.playVideo();\n            \x7d\n            // Show center indicator briefly\n            var center = document.getElementById(\x27centerPlay\x27);\n            center.classList.add(\x27visible\x27);\n            setTimeout(function() \x7b\n                center.classList.remove(\x27visible\x27);\n            \x7d, 500);\n        \x7d\n\n        function toggleMute() \x7b\n            if (isMuted) \x7b\n                player.unMute();\n                isMuted = false;\n                document.getElementById(\x27muteBtn\x27).textContent = \x27\uf8ff\u00fc\u00ee\u00e4\x27;\n            \x7d else \x7b\n                player.mute();\n                isMuted = true;\n                document.getElementById(\x27muteBtn\x27).textContent = \x27\uf8ff\u00fc\u00ee\u00e1\x27;\n            \x7d\n        \x7d\n\n        function formatTime(seconds) \x7b\n            var mins = Math.floor(seconds / 60);\n            var secs = Math.floor(seconds % 60);\n            return mins + \x27:\x27 + (secs < 10 ? \x270\x27 : \x27\x27) + secs;\n        \x7d\n\n        function startProgressUpdate() \x7b\n            updateInterval = setInterval(function() \x7b\n                if (player && player.getCurrentTime) \x7b\n                    var current = player.getCurrentTime();\n                    var duration = player.getDuration();\n                    var percent = (current / duration) * 100;\n                    document.getElementById(\x27progressBar\x27).style.width = percent + \x27%\x27;\n                    document.getElementById(\x27timeDisplay\x27).textContent = \n                        formatTime(current) + \x27 / \x27 + formatTime(duration);\n                \x7d\n            \x7d, 250);\n        \x7d\n\n        function seek(e) \x7b\n            var container = document.getElementById(\x27progressContainer\x27);\n            var rect = container.getBoundingClientRect();\n            var percent = (e.clientX - rect.left) / rect.width;\n            var duration = player.getDuration();\n            player.seekTo(percent * duration, true);\n        \x7d\n\n        // Event listeners\n        document.getElementById(\x27playBtn\x27).addEventListener(\x27click\x27, togglePlay);\n        document.getElementById(\x27tapArea\x27).addEventListener(\x27click\x27, togglePlay);\n        document.getElementById(\x27muteBtn\x27).addEventListener(\x27click\x27, toggleMute);\n        document.getElementById(\x27progressContainer\x27).addEventListener(\x27click\x27, seek);\n\n        // Block any navigation attempts\n        window.open = function() \x7b return null; \x7d;\n    </script>\n</body>\n</html>\n"

def errorHtml1 : String :=
  "\n<!DOCTYPE html>\n<html>\n<head>\n    <meta name=\"viewport\" content=\"width=device-width, initial-scale=1.0\">\n    <style>\n        body \x7b\n            background-color: #1a1a1a;\n            color: #fff;\n            font-family: Arial, sans-serif;\n            display: flex;\n            justify-content: center;\n            align-items: center;\n            height: 100vh;\n            margin: 0;\n        \x7d\n        .error-container \x7b\n            text-align: center;\n            padding: 20px;\n        \x7d\n        h1 \x7b\n            color: #ff4444;\n            margin-bottom: 10px;\n        \x7d\n        p \x7b\n            color: #ccc;\n        \x7d\n    </style>\n</head>\n<body>\n    <div class=\"error-container\">\n        <h1>Error</h1>\n        <p>"

def errorHtml2 : String :=
  "</p>\n    </div>\n</body>\n</html>\n"


/-- The rendered `html_content` f-string of `video_player`: the literal
page text with `video.title` and `video.youtube_id` interpolated, and the
YouTube IFrame API script URL in the middle. -/
def video_player_html (video : Video) : String :=
  playerHtml1 ++ video.title ++ playerHtml2a ++ upstreamIframeApiUrl ++
    playerHtml2b ++ video.youtube_id ++ playerHtml3

/-- The rendered `_error_html(message)` page. -/
def error_html (message : String) : String :=
  errorHtml1 ++ message ++ errorHtml2

/-- An HTML response: status, headers, body. -/
structure HtmlResponse where
  status : Nat
  headers : Headers
  body : String
deriving DecidableEq

/-- `GET /video/<video_id>/player` (`video_player`): token from the query
string, verified by `verify_playback_token_without_user`; then the video
lookup and the rendered player page.  Error pages come from
`_error_html` with status 400/404. -/
def video_player (env : Option String) (db : VideoDb) (now : Nat)
    (video_id : String) (token : Option TokenBlob) : HtmlResponse :=
  match token with
  | none =>
      { status := 400, headers := [("Content-Type", "text/html")],
        body := error_html "Playback token is required" }
  | some t =>
      match verify_playback_token_without_user t video_id env now with
      | none =>
          { status := 400, headers := [("Content-Type", "text/html")],
            body := error_html "Invalid or expired playback token" }
      | some _ =>
          match find_by_id db video_id with
          | none =>
              { status := 404, headers := [("Content-Type", "text/html")],
                body := error_html "Video not found" }
          | some video =>
              if video.is_active = false then
                { status := 404, headers := [("Content-Type", "text/html")],
                  body := error_html "Video is not available" }
              else
                { status := 200,
                  headers := [("Content-Type", "text/html"),
                              ("Cache-Control", "no-store, no-cache, must-revalidate, max-age=0"),
                              ("Pragma", "no-cache")],
                  body := video_player_html video }

/-- `s` contains `pat` as a contiguous substring. -/
def containsStr (s pat : String) : Prop :=
  ∃ a b, s = a ++ pat ++ b

/-! ### The proxy endpoint (`proxy_video`) -/

/-- Outcome of `requests.get(stream_url, headers=..., stream=True, timeout=30)`:
a response with status, headers and body chunks (as later iterated by
`iter_content`), a timeout (`requests.exceptions.Timeout`), or any other
exception. -/
inductive FetchOutcome where
  | ok (status : Nat) (headers : Headers) (chunks : List (List Nat))
  | timeout
  | connectionError
deriving DecidableEq

/-- The upstream HTTP collaborator, a function of the URL and the request
headers actually sent. -/
abbrev Upstream := String → Headers → FetchOutcome

/-- `req_headers['Range'] = range_header`: dict update, replacing the value
in place when the key exists, appending otherwise. -/
def setHeader (hs : Headers) (k v : String) : Headers :=
  if hs.any (fun p => p.1 == k) then
    hs.map (fun p => if p.1 == k then (k, v) else p)
  else hs ++ [(k, v)]

/-- Body of a proxy response: a plain-text error, or the streamed chunks
(`generate()` skips empty chunks). -/
inductive ProxyBody where
  | text (s : String)
  | stream (chunks : List (List Nat))
deriving DecidableEq

structure ProxyResponse where
  status : Nat
  headers : Headers
  body : ProxyBody
deriving DecidableEq

/-- `GET /video/<video_id>/proxy` (`proxy_video`): token checks, video
lookup, `_extract_stream_data`, then the upstream fetch with an optional
forwarded `Range` header; the relayed response carries `Content-Type`
(default `video/mp4`), `Accept-Ranges: bytes`,
`Access-Control-Allow-Origin: *`, and `Content-Length`/`Content-Range`
when upstream supplies them; status `206` exactly when the client sent a
`Range` and upstream answered 206, else `200`.  A timeout gives 504, any
other fetch failure 500.  The second component is the cache afterwards. -/
def proxy_video (env : Option String) (db : VideoDb) (resolver : Resolver)
    (upstream : Upstream) (cache : Cache) (now : Nat) (video_id : String)
    (token : Option TokenBlob) (range_header : Option String) :
    ProxyResponse × Cache :=
  match token with
  | none => ({ status := 400, headers := [], body := .text "Token required" }, cache)
  | some t =>
      match verify_playback_token_without_user t video_id env now with
      | none =>
          ({ status := 400, headers := [], body := .text "Invalid or expired token" }, cache)
      | some _ =>
          match find_by_id db video_id with
          | none => ({ status := 404, headers := [], body := .text "Video not found" }, cache)
          | some video =>
              if video.is_active = false then
                ({ status := 404, headers := [], body := .text "Video not available" }, cache)
              else
                match _extract_stream_data resolver cache now video.youtube_id with
                | (none, cache1) =>
                    ({ status := 500, headers := [], body := .text "Failed to get video stream" }, cache1)
                | (some (stream_url, stream_headers), cache1) =>
                    if stream_url = "" then
                      ({ status := 500, headers := [], body := .text "Failed to get video stream" }, cache1)
                    else
                      let req_headers :=
                        match range_header with
                        | some r => setHeader stream_headers "Range" r
                        | none => stream_headers
                      match upstream stream_url req_headers with
                      | .timeout =>
                          ({ status := 504, headers := [], body := .text "Stream timeout" }, cache1)
                      | .connectionError =>
                          ({ status := 500, headers := [], body := .text "Failed to stream video" }, cache1)
                      | .ok ustatus uheaders chunks =>
                          let response_headers :=
                            [("Content-Type", (uheaders.lookup "Content-Type").getD "video/mp4"),
                             ("Accept-Ranges", "bytes"),
                             ("Access-Control-Allow-Origin", "*")] ++
                            (match uheaders.lookup "Content-Length" with
                             | some v => [("Content-Length", v)]
                             | none => []) ++
                            (match uheaders.lookup "Content-Range" with
                             | some v => [("Content-Range", v)]
                             | none => [])
                          let status_code :=
                            if range_header.isSome && ustatus == 206 then 206 else 200
                          ({ status := status_code, headers := response_headers,
                             body := .stream (chunks.filter (fun c => c != [])) }, cache1)

/-! ### The stream endpoint (`stream_video`) -/

/-- A canonical string form of a token blob, standing for the JWT wire
string that the route interpolates into the proxy URL. -/
def tokenRepr : TokenBlob → String
  | .malformed s => s
  | .signed p secret =>
      p.video_id ++ "." ++ p.user_id ++ "." ++ p.type ++ "." ++
        toString p.iat ++ "." ++ toString p.exp ++ "." ++ secret

/-- JSON body of a `stream_video` response. -/
inductive StreamBody where
  | jsonError (error : String)
  | jsonOk (stream_url video_id title description thumbnail_url : String)
      (expires_in : Nat)
deriving DecidableEq

/-- `GET /video/<video_id>/stream` (`stream_video`): requires the JWT
identity `user_id`; verifies the playback token with
`verify_playback_token`, looks the video up, and on success returns the
proxy URL plus metadata and `expires_in = 3600`.  It never touches the
resolver, the cache, or upstream. -/
def stream_video (env : Option String) (db : VideoDb) (user_id : String)
    (now : Nat) (video_id : String) (token : Option TokenBlob) :
    StreamBody × Nat :=
  match token with
  | none => (.jsonError "Playback token is required", 400)
  | some t =>
      match verify_playback_token t video_id user_id env now with
      | none => (.jsonError "Invalid or expired playback token", 400)
      | some _ =>
          match find_by_id db video_id with
          | none => (.jsonError "Video not found", 404)
          | some video =>
              if video.is_active = false then (.jsonError "Video is not available", 404)
              else
                (.jsonOk ("/video/" ++ video_id ++ "/proxy?token=" ++ tokenRepr t)
                  video_id video.title video.description video.thumbnail_url 3600, 200)

/-! ## Two-thread interleaving semantics for `_extract_stream_data`

`_cache_lock` guards only the dict accesses: `_get_cached_stream_data`
and `_cache_stream_data` are atomic critical sections, while the yt-dlp
call in between runs with no lock held.  A thread executing
`_extract_stream_data` therefore decomposes into three atomic steps:
the locked cache lookup, the unlocked resolver call (with the pure
locator selection), and the locked cache write.  Two threads run these
steps in any interleaving chosen by a schedule. -/

/-- Program counter of a thread inside `_extract_stream_data`. -/
inductive TPC where
  | start
  | callR
  | store
  | done
deriving DecidableEq

/-- A thread: its position, its key, the locator it fetched from the
resolver (held in a local between steps), its return value, and a ghost
flag recording whether it has invoked the resolver. -/
structure TState where
  pc : TPC
  key : String
  fetched : Option (String × Headers)
  result : Option (String × Headers)
  called : Bool
deriving DecidableEq

/-- The shared cache, two threads, and a ghost resolver-invocation count. -/
structure Sys where
  cache : Cache
  t1 : TState
  t2 : TState
  calls : Nat
deriving DecidableEq

/-- One atomic step of a thread running `_extract_stream_data`:
the locked cache lookup (hit returns, miss falls through), the unlocked
resolver invocation, or the locked cache write of a found locator. -/
def stepThread (resolver : Resolver) (now : Nat) (cache : Cache) (t : TState)
    (calls : Nat) : Cache × TState × Nat :=
  match t.pc with
  | .start =>
      match _get_cached_stream_data cache now t.key with
      | (some e, cache1) =>
          (cache1, { t with pc := .done, result := some (e.url, e.headers) }, calls)
      | (none, cache1) => (cache1, { t with pc := .callR }, calls)
  | .callR =>
      match (match resolver t.key with
             | none => none
             | some info => resolveFromInfo info) with
      | none =>
          (cache, { t with pc := .done, result := none, called := true }, calls + 1)
      | some uh =>
          (cache, { t with pc := .store, fetched := some uh, called := true }, calls + 1)
  | .store =>
      match t.fetched with
      | some (u, h) =>
          (_cache_stream_data cache now t.key u h,
            { t with pc := .done, result := some (u, h) }, calls)
      | none => (cache, { t with pc := .done, result := none }, calls)
  | .done => (cache, t, calls)

/-- Run one step of the thread selected by the schedule bit. -/
def step (resolver : Resolver) (now : Nat) (s : Sys) (who : Bool) : Sys :=
  if who then
    match stepThread resolver now s.cache s.t1 s.calls with
    | (c, t, k) => { s with cache := c, t1 := t, calls := k }
  else
    match stepThread resolver now s.cache s.t2 s.calls with
    | (c, t, k) => { s with cache := c, t2 := t, calls := k }

/-- Run a whole schedule. -/
def run (resolver : Resolver) (now : Nat) (s : Sys) : List Bool → Sys
  | [] => s
  | w :: ws => run resolver now (step resolver now s w) ws

/-- A thread about to enter `_extract_stream_data` for key `k`. -/
def initThread (k : String) : TState :=
  { pc := .start, key := k, fetched := none, result := none, called := false }

/-- Two fresh threads over the empty cache. -/
def initSys (k1 k2 : String) : Sys :=
  { cache := [], t1 := initThread k1, t2 := initThread k2, calls := 0 }

/-- The entry a successful resolution of locator `(u, hs)` stores. -/
def entryFor (u : String) (hs : Headers) (now : Nat) : CacheEntry :=
  { url := u, headers := hs, expires_at := now + CACHE_DURATION }

/-- Per-thread invariant of the interleaved run, for a thread whose
resolution yields locator `(u, hs)`. -/
def ThreadInv (u : String) (hs : Headers) (t : TState) : Prop :=
  match t.pc with
  | .start => t.fetched = none ∧ t.result = none ∧ t.called = false
  | .callR => t.fetched = none ∧ t.result = none ∧ t.called = false
  | .store => t.fetched = some (u, hs) ∧ t.called = true
  | .done => t.result = some (u, hs)

/-- System invariant: every cache entry is the canonical entry of one of
the two keys and was written by a thread that has invoked the resolver;
each thread satisfies its local invariant; the call count is the number
of threads whose ghost flag is set; and a finished thread either invoked
the resolver itself or (same key only) rode on the other thread's. -/
def Inv (k1 k2 u1 u2 : String) (h1s h2s : Headers) (now : Nat) (s : Sys) : Prop :=
  (∀ k e, s.cache.lookup k = some e →
      (k = k1 ∧ e = entryFor u1 h1s now ∧
        (s.t1.called = true ∨ (k1 = k2 ∧ s.t2.called = true))) ∨
      (k = k2 ∧ e = entryFor u2 h2s now ∧
        (s.t2.called = true ∨ (k1 = k2 ∧ s.t1.called = true)))) ∧
  ThreadInv u1 h1s s.t1 ∧ ThreadInv u2 h2s s.t2 ∧
  s.t1.key = k1 ∧ s.t2.key = k2 ∧
  s.calls = (if s.t1.called then 1 else 0) + (if s.t2.called then 1 else 0) ∧
  (s.t1.pc = .done → (s.t1.called = true ∨ (k1 = k2 ∧ s.t2.called = true))) ∧
  (s.t2.pc = .done → (s.t2.called = true ∨ (k1 = k2 ∧ s.t1.called = true)))

/-! ## Concrete worlds used by the counterexamples and witnesses -/

/-- A well-formed `ObjectId` hex string. -/
def cVid : String := "65a1b2c3d4e5f60718293a4b"

/-- A stored, active video. -/
def cVideo : Video :=
  { oid := cVid, title := "T", description := "D", youtube_id := "yid123",
    thumbnail_url := "http://x/t.jpg", is_active := true }

def cDb : VideoDb := [(cVid, cVideo)]

/-- A configuration with `JWT_SECRET_KEY` set, so that both verification
paths share the secret `s-video`. -/
def cEnv : Option String := some "s"

/-- A token for `cVid`, issued at time 0. -/
def cToken : TokenBlob := generate_playback_token cVid "u1" cEnv 0

/-- A resolver that always succeeds with a fixed locator. -/
def cResolver : Resolver := fun _ =>
  some { url := some "https://upstream/x", http_headers := [("User-Agent", "ua")],
         formats := [] }

/-- An upstream that always times out. -/
def cUpstreamTimeout : Upstream := fun _ _ => .timeout

/-- An upstream that always answers 206 with range headers and two
non-empty chunks around an empty one. -/
def cUpstreamOk : Upstream := fun _ _ =>
  .ok 206
    [("Content-Type", "video/webm"), ("Content-Length", "42"),
     ("Content-Range", "bytes 0-41/100")]
    [[1, 2], [], [3]]

/-- C1: in the default configuration (`JWT_SECRET_KEY` unset, `env = none`)
the two halves of the verification operation disagree:
`generate_playback_token` signs with `'video-secret-key' + '-video'` while
`verify_playback_token_without_user` checks with `'jwt-secret-key' + '-video'`,
so a freshly generated token verifies on the with-subject path but is
rejected by the without-subject path well before its expiry. -/
theorem C1_default_secret_mismatch :
    verify_playback_token_without_user
        (generate_playback_token "v" "u" none 0) "v" none 1 = none ∧
    verify_playback_token (generate_playback_token "v" "u" none 0) "v" "u" none 1 =
      some { video_id := "v", user_id := "u", type := "playback",
             iat := 0, exp := 3600 } ∧
    get_video_secret none ≠ without_user_secret none := by
  refine ⟨rfl, rfl, ?_⟩
  decide

/-- C4 (counterexample): three different failure causes — a malformed blob,
an expired correctly-signed token, and a resource mismatch — all produce
the very same undifferentiated value `none`; there is no machine-readable
error kind in the result. -/
theorem C4_counterexample :
    verify_playback_token (.malformed "x") "v" "u" none 5 = none ∧
    verify_playback_token
        (.signed { video_id := "v", user_id := "u", type := "playback",
                   iat := 0, exp := 1 } (get_video_secret none)) "v" "u" none 5 = none ∧
    verify_playback_token
        (.signed { video_id := "w", user_id := "u", type := "playback",
                   iat := 0, exp := 9 } (get_video_secret none)) "v" "u" none 5 = none := by
  exact ⟨rfl, rfl, rfl⟩

/-- C4 (amended): verification checks the causes in the spec's order —
malformed, bad signature, expired, wrong kind, resource mismatch, then
(on the with-subject path only) subject mismatch — but collapses every
failure cause to the single value `none`: both source verifiers equal the
spec classifier with its error kind erased. -/
theorem C4_failures_collapse_to_none (token : TokenBlob) (vid uid : String)
    (env : Option String) (now : Nat) :
    verify_playback_token token vid uid env now =
      dropErrorKind (verify_spec token (get_video_secret env) vid (some uid) now) ∧
    verify_playback_token_without_user token vid env now =
      dropErrorKind (verify_spec token (without_user_secret env) vid none now) := by
  cases token with
  | malformed s => exact ⟨rfl, rfl⟩
  | signed p s =>
      constructor <;>
        simp only [verify_playback_token, verify_playback_token_without_user,
          verify_spec, jwt_decode, dropErrorKind, ne_eq, ite_not] <;>
        split_ifs <;> simp_all [dropErrorKind]

/-! ## Helper lemmas -/

theorem lookup_eraseKey (cache : Cache) (k : String) :
    (eraseKey cache k).lookup k = none := by
  induction cache with
  | nil => rfl
  | cons p rest ih =>
      obtain ⟨a, b⟩ := p
      simp only [eraseKey, List.filter_cons] at ih ⊢
      by_cases hp : a = k
      · simpa [hp] using ih
      · have hka : (k == a) = false := beq_eq_false_iff_ne.mpr (Ne.symm hp)
        simp [bne_iff_ne, hp, List.lookup, hka, ih]

theorem lookup_eraseKey_ne (cache : Cache) (k k' : String) (h : k' ≠ k) :
    (eraseKey cache k).lookup k' = cache.lookup k' := by
  have hk : (k' == k) = false := beq_eq_false_iff_ne.mpr h
  induction cache with
  | nil => rfl
  | cons p rest ih =>
      obtain ⟨a, b⟩ := p
      simp only [eraseKey, List.filter_cons] at ih ⊢
      by_cases hp : a = k
      · subst hp
        simpa [List.lookup, hk] using ih
      · have hkeep : ((a, b).1 != k) = true := by simp [bne_iff_ne, hp]
        simp only [hkeep, if_true]
        cases hba : k' == a <;> simp [List.lookup, hba, ih]

theorem string_append_assoc (a b c : String) : a ++ b ++ c = a ++ (b ++ c) := by
  apply String.ext
  simp [String.data_append, List.append_assoc]

/-- C6: every entry stored by `_cache_stream_data` carries
`expires_at = now + 3600`; a lookup returns the entry exactly while
`now < expires_at` (and then `_extract_stream_data` is independent of the
resolver); at or after `expires_at` the entry is treated as absent,
removed from the cache, and `_extract_stream_data` re-resolves. -/
theorem C6_ttl_and_expiry (cache : Cache) (now : Nat) (yid url : String)
    (hdrs : Headers) (e : CacheEntry) :
    ((_cache_stream_data cache now yid url hdrs).lookup yid =
        some { url := url, headers := hdrs, expires_at := now + 3600 }) ∧
    (cache.lookup yid = some e → now < e.expires_at →
        _get_cached_stream_data cache now yid = (some e, cache) ∧
        ∀ resolver, _extract_stream_data resolver cache now yid =
          (some (e.url, e.headers), cache)) ∧
    (cache.lookup yid = some e → e.expires_at ≤ now →
        _get_cached_stream_data cache now yid = (none, eraseKey cache yid) ∧
        (eraseKey cache yid).lookup yid = none ∧
        ∀ resolver, _extract_stream_data resolver cache now yid =
          (match resolver yid with
           | none => (none, eraseKey cache yid)
           | some info =>
               match resolveFromInfo info with
               | some (u, h) =>
                   (some (u, h), _cache_stream_data (eraseKey cache yid) now yid u h)
               | none => (none, eraseKey cache yid))) := by
  refine ⟨?_, ?_, ?_⟩
  · simp [_cache_stream_data, List.lookup, CACHE_DURATION]
  · intro hl hfresh
    have hg : _get_cached_stream_data cache now yid = (some e, cache) := by
      simp [_get_cached_stream_data, hl, hfresh]
    exact ⟨hg, fun resolver => by simp [_extract_stream_data, hg]⟩
  · intro hl hexp
    have hg : _get_cached_stream_data cache now yid = (none, eraseKey cache yid) := by
      simp [_get_cached_stream_data, hl, Nat.not_lt.mpr hexp]
    refine ⟨hg, lookup_eraseKey cache yid, fun resolver => ?_⟩
    simp only [_extract_stream_data, hg]

/-- C6 witness: at time 5 an insert carries `expires_at = 3605`; a lookup
at 5 of an entry expiring at 10 hits; a lookup at 5 of an entry that
expired at 5 misses and removes it. -/
theorem C6_witness :
    ((_cache_stream_data [] 5 "k" "u" []).lookup "k" =
        some { url := "u", headers := [], expires_at := 3605 }) ∧
    (_get_cached_stream_data [("k", { url := "u", headers := [], expires_at := 10 })] 5 "k" =
        (some { url := "u", headers := [], expires_at := 10 },
          [("k", { url := "u", headers := [], expires_at := 10 })])) ∧
    (_get_cached_stream_data [("k", { url := "u", headers := [], expires_at := 5 })] 5 "k" =
        (none, [])) := by
  refine ⟨?_, ?_, ?_⟩
  · exact (C6_ttl_and_expiry [] 5 "k" "u" []
      { url := "", headers := [], expires_at := 0 }).1
  · exact ((C6_ttl_and_expiry [("k", { url := "u", headers := [], expires_at := 10 })]
      5 "k" "x" [] { url := "u", headers := [], expires_at := 10 }).2.1 rfl (by decide)).1
  · exact ((C6_ttl_and_expiry [("k", { url := "u", headers := [], expires_at := 5 })]
      5 "k" "x" [] { url := "u", headers := [], expires_at := 5 }).2.2 rfl (by decide)).1

/-- C7: when the resolver is consulted (no fresh cache entry) and fails to
produce a locator — it raises, or yields no usable URL — nothing is
cached: `_extract_stream_data` returns the failure value `none` with the
cache exactly as the lookup left it, that cache holds no entry for the
identifier, and the proxy endpoint answers 500. -/
theorem C7_resolver_failure_not_cached (resolver : Resolver) (env : Option String)
    (db : VideoDb) (upstream : Upstream) (cache : Cache) (now : Nat)
    (yid vid : String) (tok : TokenBlob) (p : Payload) (video : Video)
    (range : Option String)
    (hmiss : (_get_cached_stream_data cache now yid).1 = none)
    (hfail : ∀ info, resolver yid = some info → resolveFromInfo info = none) :
    _extract_stream_data resolver cache now yid =
      (none, (_get_cached_stream_data cache now yid).2) ∧
    ((_get_cached_stream_data cache now yid).2).lookup yid = none ∧
    (verify_playback_token_without_user tok vid env now = some p →
      find_by_id db vid = some video → video.is_active = true →
      video.youtube_id = yid →
      proxy_video env db resolver upstream cache now vid (some tok) range =
        ({ status := 500, headers := [], body := .text "Failed to get video stream" },
          (_get_cached_stream_data cache now yid).2)) := by
  have hext : _extract_stream_data resolver cache now yid =
      (none, (_get_cached_stream_data cache now yid).2) := by
    rcases hget : _get_cached_stream_data cache now yid with ⟨o, c2⟩
    rw [hget] at hmiss
    simp only at hmiss
    subst hmiss
    simp only [_extract_stream_data, hget]
    cases hr : resolver yid with
    | none => rfl
    | some info => simp [hfail info hr]
  have hlook : ((_get_cached_stream_data cache now yid).2).lookup yid = none := by
    unfold _get_cached_stream_data at hmiss ⊢
    cases hl : cache.lookup yid with
    | none => simp [hl]
    | some e =>
        by_cases hfresh : e.expires_at > now
        · rw [hl] at hmiss; simp [hfresh] at hmiss
        · simp [hl, hfresh, lookup_eraseKey]
  refine ⟨hext, hlook, fun htok hvid hact hyid => ?_⟩
  simp [proxy_video, htok, hvid, hact, hyid, hext]

/-- C7 witness: an always-raising resolver over the empty cache, behind a
valid token for the stored active video, produces 500 and an empty cache. -/
theorem C7_witness :
    _extract_stream_data (fun _ => none) [] 1 "yid123" = (none, []) ∧
    proxy_video cEnv cDb (fun _ => none) cUpstreamTimeout [] 1 cVid
        (some cToken) none =
      ({ status := 500, headers := [], body := .text "Failed to get video stream" }, []) := by
  have h := C7_resolver_failure_not_cached (fun _ => none) cEnv cDb cUpstreamTimeout
    [] 1 "yid123" cVid cToken
    { video_id := cVid, user_id := "u1", type := "playback", iat := 0, exp := 3600 }
    cVideo none rfl (fun info hinfo => by simp at hinfo)
  exact ⟨h.1, h.2.2 rfl rfl rfl rfl⟩

/-- C2 (counterexample): a concrete active video and a token that
verifies for it: the player endpoint answers 200, yet the page body
contains the video's `youtube_id` and the upstream-host URL
`https://www.youtube.com/iframe_api`. -/
theorem C2_counterexample :
    (video_player cEnv cDb 1 cVid (some cToken)).status = 200 ∧
    containsStr (video_player cEnv cDb 1 cVid (some cToken)).body cVideo.youtube_id ∧
    containsStr (video_player cEnv cDb 1 cVid (some cToken)).body upstreamIframeApiUrl := by
  have hbody : (video_player cEnv cDb 1 cVid (some cToken)).body =
      video_player_html cVideo := rfl
  refine ⟨rfl, ?_, ?_⟩
  · exact ⟨playerHtml1 ++ cVideo.title ++ playerHtml2a ++ upstreamIframeApiUrl ++
      playerHtml2b, playerHtml3, hbody⟩
  · refine ⟨playerHtml1 ++ cVideo.title ++ playerHtml2a,
      playerHtml2b ++ cVideo.youtube_id ++ playerHtml3, ?_⟩
    rw [hbody]
    simp only [video_player_html, string_append_assoc]

/-- C2 (amended): for every video and every playback token that verifies
for it, the player endpoint answers 200 with the player page — but that
page embeds the upstream content identifier (`video.youtube_id`) and the
upstream-host URL of the YouTube IFrame API; only the JSON responses omit
them. -/
theorem C2_player_embeds_upstream (env : Option String) (db : VideoDb) (now : Nat)
    (vid : String) (tok : TokenBlob) (p : Payload) (video : Video)
    (htok : verify_playback_token_without_user tok vid env now = some p)
    (hvid : find_by_id db vid = some video)
    (hact : video.is_active = true) :
    (video_player env db now vid (some tok)).status = 200 ∧
    containsStr (video_player env db now vid (some tok)).body video.youtube_id ∧
    containsStr (video_player env db now vid (some tok)).body upstreamIframeApiUrl := by
  have hresp : video_player env db now vid (some tok) =
      { status := 200,
        headers := [("Content-Type", "text/html"),
                    ("Cache-Control", "no-store, no-cache, must-revalidate, max-age=0"),
                    ("Pragma", "no-cache")],
        body := video_player_html video } := by
    simp [video_player, htok, hvid, hact]
  refine ⟨by rw [hresp], ?_, ?_⟩
  · exact ⟨playerHtml1 ++ video.title ++ playerHtml2a ++ upstreamIframeApiUrl ++
      playerHtml2b, playerHtml3, by rw [hresp]; rfl⟩
  · refine ⟨playerHtml1 ++ video.title ++ playerHtml2a,
      playerHtml2b ++ video.youtube_id ++ playerHtml3, ?_⟩
    rw [hresp]
    simp only [video_player_html, string_append_assoc]

/-- C2 witness: the amended theorem instantiated at the concrete world:
the token verifies and the 200 page embeds both upstream references. -/
theorem C2_player_embeds_upstream_witness :
    verify_playback_token_without_user cToken cVid cEnv 1 =
      some { video_id := cVid, user_id := "u1", type := "playback",
             iat := 0, exp := 3600 } ∧
    (containsStr (video_player cEnv cDb 1 cVid (some cToken)).body cVideo.youtube_id ∧
     containsStr (video_player cEnv cDb 1 cVid (some cToken)).body upstreamIframeApiUrl) :=
  ⟨rfl, (C2_player_embeds_upstream cEnv cDb 1 cVid cToken
      { video_id := cVid, user_id := "u1", type := "playback", iat := 0, exp := 3600 }
      cVideo rfl rfl rfl).2⟩

/-- C10: `find_by_id` is total over arbitrary identifier strings — a
string `bson.ObjectId` rejects yields `None` (the parse error is caught),
and each of the three endpoints, presented with a token that verifies for
that malformed identifier, answers 404 "Video not found" rather than a
500 from identifier parsing. -/
theorem C10_malformed_id_yields_404 (env : Option String) (db : VideoDb)
    (resolver : Resolver) (upstream : Upstream) (cache : Cache) (now : Nat)
    (vid uid : String) (tok : TokenBlob) (p : Payload) (range : Option String)
    (hbad : isValidObjectId vid = false) :
    find_by_id db vid = none ∧
    (verify_playback_token_without_user tok vid env now = some p →
      proxy_video env db resolver upstream cache now vid (some tok) range =
        ({ status := 404, headers := [], body := .text "Video not found" }, cache)) ∧
    (verify_playback_token tok vid uid env now = some p →
      stream_video env db uid now vid (some tok) =
        (.jsonError "Video not found", 404)) ∧
    (verify_playback_token_without_user tok vid env now = some p →
      video_player env db now vid (some tok) =
        { status := 404, headers := [("Content-Type", "text/html")],
          body := error_html "Video not found" }) := by
  have hfind : find_by_id db vid = none := by simp [find_by_id, hbad]
  refine ⟨hfind, fun htok => ?_, fun htok => ?_, fun htok => ?_⟩
  · simp [proxy_video, htok, hfind]
  · simp [stream_video, htok, hfind]
  · simp [video_player, htok, hfind]

/-- C10 witness: the malformed identifier "zzz" with a token generated for
it: the proxy endpoint answers 404 "Video not found". -/
theorem C10_witness :
    isValidObjectId "zzz" = false ∧
    proxy_video cEnv cDb cResolver cUpstreamTimeout [] 1 "zzz"
        (some (generate_playback_token "zzz" "u1" cEnv 0)) none =
      ({ status := 404, headers := [], body := .text "Video not found" }, []) :=
  ⟨rfl,
    (C10_malformed_id_yields_404 cEnv cDb cResolver cUpstreamTimeout [] 1 "zzz" "u1"
        (generate_playback_token "zzz" "u1" cEnv 0)
        { video_id := "zzz", user_id := "u1", type := "playback", iat := 0, exp := 3600 }
        none rfl).2.1 rfl⟩

/-- C8: a missing playback token, or a signed unexpired playback token
whose `video_id` differs from the path's identifier, makes both the proxy
endpoint and the stream endpoint answer 400 — and the equations' right
sides neither depend on the resolver or upstream collaborators nor change
the cache, so no resolver or upstream call is made (`stream_video` takes
no resolver or upstream at all). -/
theorem C8_reject_before_any_resolution (env : Option String) (db : VideoDb)
    (resolver : Resolver) (upstream : Upstream) (cache : Cache) (now : Nat)
    (vid uid : String) (p : Payload) (range : Option String) :
    (proxy_video env db resolver upstream cache now vid none range =
        ({ status := 400, headers := [], body := .text "Token required" }, cache)) ∧
    (p.type = "playback" → now < p.exp → p.video_id ≠ vid →
      proxy_video env db resolver upstream cache now vid
          (some (.signed p (without_user_secret env))) range =
        ({ status := 400, headers := [], body := .text "Invalid or expired token" },
          cache)) ∧
    (stream_video env db uid now vid none =
        (.jsonError "Playback token is required", 400)) ∧
    (p.type = "playback" → now < p.exp → p.video_id ≠ vid →
      stream_video env db uid now vid (some (.signed p (get_video_secret env))) =
        (.jsonError "Invalid or expired playback token", 400)) := by
  refine ⟨rfl, fun ht hlt hne => ?_, rfl, fun ht hlt hne => ?_⟩
  · have hv : verify_playback_token_without_user
        (.signed p (without_user_secret env)) vid env now = none := by
      simp [verify_playback_token_without_user, jwt_decode, Nat.not_le.mpr hlt, ht, hne]
    simp [proxy_video, hv]
  · have hv : verify_playback_token
        (.signed p (get_video_secret env)) vid uid env now = none := by
      simp [verify_playback_token, jwt_decode, Nat.not_le.mpr hlt, ht, hne]
    simp [stream_video, hv]

/-- C8 witness: at the concrete world, a missing token and a token minted
for a different video both yield 400 with the cache untouched. -/
theorem C8_witness :
    (proxy_video cEnv cDb cResolver cUpstreamTimeout [] 1 cVid none none =
        ({ status := 400, headers := [], body := .text "Token required" }, [])) ∧
    (proxy_video cEnv cDb cResolver cUpstreamTimeout [] 1 cVid
        (some (.signed { video_id := "other", user_id := "u1", type := "playback",
                         iat := 0, exp := 3600 } (without_user_secret cEnv))) none =
      ({ status := 400, headers := [], body := .text "Invalid or expired token" }, [])) := by
  have h := C8_reject_before_any_resolution cEnv cDb cResolver cUpstreamTimeout [] 1
    cVid "u1" { video_id := "other", user_id := "u1", type := "playback",
                iat := 0, exp := 3600 } none
  exact ⟨h.1, h.2.1 rfl (by decide) (by decide)⟩

/-- C9: on every successful upstream fetch the relayed response sets
`Accept-Ranges: bytes` and `Access-Control-Allow-Origin: *`
unconditionally, propagates `Content-Type` with default `video/mp4`,
propagates `Content-Length` and `Content-Range` exactly when upstream
supplies them, carries no header beyond those five names, and has status
206 iff the client sent a `Range` and upstream answered 206, else 200. -/
theorem C9_relay_headers_and_status (env : Option String) (db : VideoDb)
    (resolver : Resolver) (upstream : Upstream) (cache cache1 : Cache) (now : Nat)
    (vid : String) (tok : TokenBlob) (p : Payload) (video : Video)
    (range : Option String) (stream_url : String) (stream_headers : Headers)
    (ustatus : Nat) (uheaders : Headers) (chunks : List (List Nat))
    (htok : verify_playback_token_without_user tok vid env now = some p)
    (hvid : find_by_id db vid = some video)
    (hact : video.is_active = true)
    (hext : _extract_stream_data resolver cache now video.youtube_id =
      (some (stream_url, stream_headers), cache1))
    (hurl : stream_url ≠ "")
    (hup : upstream stream_url
        (match range with
         | some r => setHeader stream_headers "Range" r
         | none => stream_headers) = .ok ustatus uheaders chunks) :
    ((proxy_video env db resolver upstream cache now vid (some tok) range).1.status = 206 ↔
        range.isSome ∧ ustatus = 206) ∧
    (¬ (range.isSome ∧ ustatus = 206) →
      (proxy_video env db resolver upstream cache now vid (some tok) range).1.status = 200) ∧
    ((proxy_video env db resolver upstream cache now vid (some tok) range).1.headers.lookup
        "Content-Type" = some ((uheaders.lookup "Content-Type").getD "video/mp4")) ∧
    ((proxy_video env db resolver upstream cache now vid (some tok) range).1.headers.lookup
        "Accept-Ranges" = some "bytes") ∧
    ((proxy_video env db resolver upstream cache now vid (some tok) range).1.headers.lookup
        "Access-Control-Allow-Origin" = some "*") ∧
    ((proxy_video env db resolver upstream cache now vid (some tok) range).1.headers.lookup
        "Content-Length" = uheaders.lookup "Content-Length") ∧
    ((proxy_video env db resolver upstream cache now vid (some tok) range).1.headers.lookup
        "Content-Range" = uheaders.lookup "Content-Range") ∧
    ((proxy_video env db resolver upstream cache now vid (some tok) range).1.headers.all
        (fun kv => kv.1 == "Content-Type" || kv.1 == "Accept-Ranges" ||
          kv.1 == "Access-Control-Allow-Origin" || kv.1 == "Content-Length" ||
          kv.1 == "Content-Range") = true) ∧
    ((proxy_video env db resolver upstream cache now vid (some tok) range).2 = cache1) := by
  have hresp : proxy_video env db resolver upstream cache now vid (some tok) range =
      ({ status := if range.isSome && ustatus == 206 then 206 else 200,
         headers :=
           [("Content-Type", (uheaders.lookup "Content-Type").getD "video/mp4"),
            ("Accept-Ranges", "bytes"),
            ("Access-Control-Allow-Origin", "*")] ++
           (match uheaders.lookup "Content-Length" with
            | some v => [("Content-Length", v)]
            | none => []) ++
           (match uheaders.lookup "Content-Range" with
            | some v => [("Content-Range", v)]
            | none => []),
         body := .stream (chunks.filter (fun c => c != [])) }, cache1) := by
    simp [proxy_video, htok, hvid, hact, hext, hurl, hup]
  rw [hresp]
  refine ⟨?_, ?_, ?_, ?_, ?_, ?_, ?_, ?_, rfl⟩
  · by_cases hc : range.isSome ∧ ustatus = 206 <;> simp [hc]
  · intro hc
    simp only
    rw [if_neg (by simpa using hc)]
  all_goals
    cases hCL : uheaders.lookup "Content-Length" <;>
      cases hCR : uheaders.lookup "Content-Range" <;> rfl

/-- C9 witness: the concrete world with a ranged request against an
upstream answering 206 with explicit length and range headers. -/
theorem C9_witness :
    ((proxy_video cEnv cDb cResolver cUpstreamOk [] 1 cVid (some cToken)
        (some "bytes=0-41")).1.status = 206) ∧
    ((proxy_video cEnv cDb cResolver cUpstreamOk [] 1 cVid (some cToken)
        (some "bytes=0-41")).1.headers.lookup "Content-Length" = some "42") := by
  have h := C9_relay_headers_and_status cEnv cDb cResolver cUpstreamOk []
    [("yid123", { url := "https://upstream/x", headers := [("User-Agent", "ua")],
                  expires_at := 3601 })]
    1 cVid cToken
    { video_id := cVid, user_id := "u1", type := "playback", iat := 0, exp := 3600 }
    cVideo (some "bytes=0-41") "https://upstream/x" [("User-Agent", "ua")]
    206
    [("Content-Type", "video/webm"), ("Content-Length", "42"),
     ("Content-Range", "bytes 0-41/100")]
    [[1, 2], [], [3]]
    rfl rfl rfl rfl (by decide) rfl
  exact ⟨h.1.mpr ⟨rfl, rfl⟩, h.2.2.2.2.2.1⟩

/-- C5 (counterexample): with an empty cache, a valid token and a
successful resolution followed by an upstream timeout, the proxy answers
504 — but the cache, empty before the request, now holds the resolved
entry for the video's content identifier, so the claim's "cache entries
are the same after the failed request as before" fails. -/
theorem C5_counterexample :
    (proxy_video cEnv cDb cResolver cUpstreamTimeout [] 1 cVid (some cToken) none).1.status =
      504 ∧
    ([] : Cache).lookup "yid123" = none ∧
    (proxy_video cEnv cDb cResolver cUpstreamTimeout [] 1 cVid (some cToken) none).2.lookup
        "yid123" =
      some { url := "https://upstream/x", headers := [("User-Agent", "ua")],
             expires_at := 3601 } ∧
    (proxy_video cEnv cDb cResolver cUpstreamTimeout [] 1 cVid (some cToken) none).2 ≠
      ([] : Cache) := by
  refine ⟨rfl, rfl, rfl, by decide⟩

/-- C5 (amended): an upstream timeout yields 504 and the fetch failure
itself stores nothing: the final cache is exactly the cache as
`_extract_stream_data` left it — which, the resolution having succeeded
before the fetch, does include the freshly resolved entry. -/
theorem C5_timeout_504_cache_from_resolution_only (env : Option String)
    (db : VideoDb) (resolver : Resolver) (upstream : Upstream)
    (cache cache1 : Cache) (now : Nat) (vid : String) (tok : TokenBlob)
    (p : Payload) (video : Video) (range : Option String)
    (stream_url : String) (stream_headers : Headers)
    (htok : verify_playback_token_without_user tok vid env now = some p)
    (hvid : find_by_id db vid = some video)
    (hact : video.is_active = true)
    (hext : _extract_stream_data resolver cache now video.youtube_id =
      (some (stream_url, stream_headers), cache1))
    (hurl : stream_url ≠ "")
    (hup : upstream stream_url
        (match range with
         | some r => setHeader stream_headers "Range" r
         | none => stream_headers) = .timeout) :
    proxy_video env db resolver upstream cache now vid (some tok) range =
      ({ status := 504, headers := [], body := .text "Stream timeout" }, cache1) := by
  simp [proxy_video, htok, hvid, hact, hext, hurl, hup]

/-- C5 witness: the amended theorem at the concrete timeout world. -/
theorem C5_timeout_witness :
    proxy_video cEnv cDb cResolver cUpstreamTimeout [] 1 cVid (some cToken) none =
      ({ status := 504, headers := [], body := .text "Stream timeout" },
        [("yid123", { url := "https://upstream/x", headers := [("User-Agent", "ua")],
                      expires_at := 3601 })]) :=
  C5_timeout_504_cache_from_resolution_only cEnv cDb cResolver cUpstreamTimeout []
    [("yid123", { url := "https://upstream/x", headers := [("User-Agent", "ua")],
                  expires_at := 3601 })]
    1 cVid cToken
    { video_id := cVid, user_id := "u1", type := "playback", iat := 0, exp := 3600 }
    cVideo none "https://upstream/x" [("User-Agent", "ua")]
    rfl rfl rfl rfl (by decide) rfl

theorem stepThread_preserves (resolver : Resolver) (now : Nat)
    (ka kb ua ub : String) (has hbs : Headers) (infoa infob : ExtractInfo)
    (hra : resolver ka = some infoa) (hpa : resolveFromInfo infoa = some (ua, has))
    (hrb : resolver kb = some infob) (hpb : resolveFromInfo infob = some (ub, hbs))
    (cache : Cache) (t : TState) (calls : Nat) (oc : Bool)
    (hkey : t.key = ka)
    (hti : ThreadInv ua has t)
    (hdc : t.pc = .done → (t.called = true ∨ (ka = kb ∧ oc = true)))
    (hcc : ∀ k e, cache.lookup k = some e →
      (k = ka ∧ e = entryFor ua has now ∧ (t.called = true ∨ (ka = kb ∧ oc = true))) ∨
      (k = kb ∧ e = entryFor ub hbs now ∧ (oc = true ∨ (ka = kb ∧ t.called = true)))) :
    ∀ c' t' calls', stepThread resolver now cache t calls = (c', t', calls') →
      t'.key = ka ∧
      ThreadInv ua has t' ∧
      (∀ k e, c'.lookup k = some e →
        (k = ka ∧ e = entryFor ua has now ∧ (t'.called = true ∨ (ka = kb ∧ oc = true))) ∨
        (k = kb ∧ e = entryFor ub hbs now ∧ (oc = true ∨ (ka = kb ∧ t'.called = true)))) ∧
      (calls' + (if t.called then 1 else 0) = calls + (if t'.called then 1 else 0)) ∧
      (t.called = true → t'.called = true) ∧
      (t'.pc = .done → (t'.called = true ∨ (ka = kb ∧ oc = true))) := by
  have hmerge : ka = kb → ua = ub ∧ has = hbs := by
    intro he
    rw [he, hrb] at hra
    injection hra with h
    rw [h] at hpb
    rw [hpa] at hpb
    injection hpb with h2
    exact ⟨congrArg Prod.fst h2, congrArg Prod.snd h2⟩
  intro c' t' calls' hstep
  cases hpc : t.pc with
  | start =>
      simp only [ThreadInv, hpc] at hti
      obtain ⟨hf, hr0, hc0⟩ := hti
      simp only [stepThread, hpc, hkey] at hstep
      cases hl : cache.lookup ka with
      | none =>
          have hg : _get_cached_stream_data cache now ka = (none, cache) := by
            simp [_get_cached_stream_data, hl]
          rw [hg] at hstep
          injection hstep with h1 h23
          injection h23 with h2 h3
          subst h1; subst h2; subst h3
          refine ⟨rfl, ⟨hf, hr0, hc0⟩, hcc, rfl, fun h => h, fun hd => TPC.noConfusion hd⟩
      | some e =>
          have hee : e = entryFor ua has now ∧
              (t.called = true ∨ (ka = kb ∧ oc = true)) := by
            rcases hcc ka e hl with ⟨-, he, hw⟩ | ⟨hab, he, hw⟩
            · exact ⟨he, hw⟩
            · obtain ⟨hu, hh⟩ := hmerge hab
              refine ⟨by rw [he, hu, hh], ?_⟩
              rcases hw with h | ⟨-, h⟩
              · exact Or.inr ⟨hab, h⟩
              · exact Or.inl h
          obtain ⟨he, hw⟩ := hee
          subst he
          have hg : _get_cached_stream_data cache now ka =
              (some (entryFor ua has now), cache) := by
            simp [_get_cached_stream_data, hl, entryFor, CACHE_DURATION]
          rw [hg] at hstep
          injection hstep with h1 h23
          injection h23 with h2 h3
          subst h1; subst h2; subst h3
          exact ⟨rfl, rfl, hcc, rfl, fun h => h, fun _ => hw⟩
  | callR =>
      simp only [ThreadInv, hpc] at hti
      obtain ⟨hf, hr0, hc0⟩ := hti
      have hres : resolver t.key = some infoa := by rw [hkey]; exact hra
      simp only [stepThread, hpc, hres, hpa] at hstep
      injection hstep with h1 h23
      injection h23 with h2 h3
      subst h1; subst h2; subst h3
      refine ⟨hkey, ⟨rfl, rfl⟩, ?_, ?_, fun _ => rfl, fun hd => TPC.noConfusion hd⟩
      · intro k e hlk
        rcases hcc k e hlk with ⟨h1, h2, -⟩ | ⟨h1, h2, h3⟩
        · exact Or.inl ⟨h1, h2, Or.inl rfl⟩
        · refine Or.inr ⟨h1, h2, ?_⟩
          rcases h3 with h | ⟨he, -⟩
          · exact Or.inl h
          · exact Or.inr ⟨he, rfl⟩
      · rw [hc0]; simp
  | store =>
      simp only [ThreadInv, hpc] at hti
      obtain ⟨hf, hc1⟩ := hti
      simp only [stepThread, hpc, hf, hkey] at hstep
      injection hstep with h1 h23
      injection h23 with h2 h3
      subst h1; subst h2; subst h3
      refine ⟨rfl, rfl, ?_, rfl, fun h => h, fun _ => Or.inl hc1⟩
      intro k e hlk
      simp only [_cache_stream_data, List.lookup] at hlk
      cases hbk : k == ka with
      | true =>
          rw [hbk] at hlk
          injection hlk with he
          refine Or.inl ⟨eq_of_beq hbk, ?_, Or.inl hc1⟩
          rw [← he]; rfl
      | false =>
          rw [hbk] at hlk
          rw [lookup_eraseKey_ne cache ka k (ne_of_beq_false hbk)] at hlk
          rcases hcc k e hlk with ⟨h1, h2, -⟩ | ⟨h1, h2, h3⟩
          · exact Or.inl ⟨h1, h2, Or.inl hc1⟩
          · refine Or.inr ⟨h1, h2, ?_⟩
            rcases h3 with h | ⟨he, -⟩
            · exact Or.inl h
            · exact Or.inr ⟨he, hc1⟩
  | done =>
      simp only [stepThread, hpc] at hstep
      injection hstep with h1 h23
      injection h23 with h2 h3
      subst h1; subst h2; subst h3
      refine ⟨hkey, ?_, hcc, rfl, fun h => h, fun _ => hdc hpc⟩
      simp only [ThreadInv, hpc] at hti ⊢
      exact hti

theorem inv_init (k1 k2 u1 u2 : String) (h1s h2s : Headers) (now : Nat) :
    Inv k1 k2 u1 u2 h1s h2s now (initSys k1 k2) := by
  refine ⟨?_, ⟨rfl, rfl, rfl⟩, ⟨rfl, rfl, rfl⟩, rfl, rfl, rfl, ?_, ?_⟩
  · intro k e h
    exact Option.noConfusion h
  · intro h
    exact TPC.noConfusion h
  · intro h
    exact TPC.noConfusion h

theorem inv_step_preserved (resolver : Resolver) (now : Nat) (k1 k2 u1 u2 : String)
    (h1s h2s : Headers) (info1 info2 : ExtractInfo)
    (hr1 : resolver k1 = some info1) (hp1 : resolveFromInfo info1 = some (u1, h1s))
    (hr2 : resolver k2 = some info2) (hp2 : resolveFromInfo info2 = some (u2, h2s))
    (s : Sys) (who : Bool) (hinv : Inv k1 k2 u1 u2 h1s h2s now s) :
    Inv k1 k2 u1 u2 h1s h2s now (step resolver now s who) := by
  obtain ⟨hcc, ht1, ht2, hk1, hk2, hcalls, hd1, hd2⟩ := hinv
  cases who with
  | true =>
      obtain ⟨hk', hti', hcc', hcalls', hmono, hdone⟩ :=
        stepThread_preserves resolver now k1 k2 u1 u2 h1s h2s info1 info2 hr1 hp1 hr2 hp2
          s.cache s.t1 s.calls s.t2.called hk1 ht1 hd1 hcc
          (stepThread resolver now s.cache s.t1 s.calls).1
          (stepThread resolver now s.cache s.t1 s.calls).2.1
          (stepThread resolver now s.cache s.t1 s.calls).2.2 rfl
      refine ⟨hcc', hti', ht2, hk', hk2, ?_, hdone, ?_⟩
      · show (stepThread resolver now s.cache s.t1 s.calls).2.2 =
            (if (stepThread resolver now s.cache s.t1 s.calls).2.1.called = true then 1 else 0) +
              (if s.t2.called = true then 1 else 0)
        have h1 := hcalls
        have h2 := hcalls'
        split_ifs at h1 h2 ⊢ <;> omega
      · intro h2d
        rcases hd2 h2d with hc | ⟨hee, hc⟩
        · exact Or.inl hc
        · exact Or.inr ⟨hee, hmono hc⟩
  | false =>
      have hcc2 : ∀ k e, s.cache.lookup k = some e →
          (k = k2 ∧ e = entryFor u2 h2s now ∧
            (s.t2.called = true ∨ (k2 = k1 ∧ s.t1.called = true))) ∨
          (k = k1 ∧ e = entryFor u1 h1s now ∧
            (s.t1.called = true ∨ (k2 = k1 ∧ s.t2.called = true))) := by
        intro k e hlk
        rcases hcc k e hlk with ⟨h1, h2, h3⟩ | ⟨h1, h2, h3⟩
        · refine Or.inr ⟨h1, h2, ?_⟩
          rcases h3 with h | ⟨he, h⟩
          · exact Or.inl h
          · exact Or.inr ⟨he.symm, h⟩
        · refine Or.inl ⟨h1, h2, ?_⟩
          rcases h3 with h | ⟨he, h⟩
          · exact Or.inl h
          · exact Or.inr ⟨he.symm, h⟩
      have hd2' : s.t2.pc = .done →
          (s.t2.called = true ∨ (k2 = k1 ∧ s.t1.called = true)) := by
        intro h
        rcases hd2 h with hc | ⟨hee, hc⟩
        · exact Or.inl hc
        · exact Or.inr ⟨hee.symm, hc⟩
      obtain ⟨hk', hti', hcc', hcalls', hmono, hdone⟩ :=
        stepThread_preserves resolver now k2 k1 u2 u1 h2s h1s info2 info1 hr2 hp2 hr1 hp1
          s.cache s.t2 s.calls s.t1.called hk2 ht2 hd2' hcc2
          (stepThread resolver now s.cache s.t2 s.calls).1
          (stepThread resolver now s.cache s.t2 s.calls).2.1
          (stepThread resolver now s.cache s.t2 s.calls).2.2 rfl
      refine ⟨?_, ht1, hti', hk1, hk', ?_, ?_, ?_⟩
      · intro k e hlk
        rcases hcc' k e hlk with ⟨h1, h2, h3⟩ | ⟨h1, h2, h3⟩
        · refine Or.inr ⟨h1, h2, ?_⟩
          rcases h3 with h | ⟨he, h⟩
          · exact Or.inl h
          · exact Or.inr ⟨he.symm, h⟩
        · refine Or.inl ⟨h1, h2, ?_⟩
          rcases h3 with h | ⟨he, h⟩
          · exact Or.inl h
          · exact Or.inr ⟨he.symm, h⟩
      · show (stepThread resolver now s.cache s.t2 s.calls).2.2 =
            (if s.t1.called = true then 1 else 0) +
              (if (stepThread resolver now s.cache s.t2 s.calls).2.1.called = true then 1 else 0)
        have h1 := hcalls
        have h2 := hcalls'
        split_ifs at h1 h2 ⊢ <;> omega
      · intro h1d
        rcases hd1 h1d with hc | ⟨hee, hc⟩
        · exact Or.inl hc
        · exact Or.inr ⟨hee, hmono hc⟩
      · intro h2d
        rcases hdone h2d with hc | ⟨hee, hc⟩
        · exact Or.inl hc
        · exact Or.inr ⟨hee.symm, hc⟩

theorem inv_run (resolver : Resolver) (now : Nat) (k1 k2 u1 u2 : String)
    (h1s h2s : Headers) (info1 info2 : ExtractInfo)
    (hr1 : resolver k1 = some info1) (hp1 : resolveFromInfo info1 = some (u1, h1s))
    (hr2 : resolver k2 = some info2) (hp2 : resolveFromInfo info2 = some (u2, h2s))
    (sched : List Bool) (s : Sys) (hinv : Inv k1 k2 u1 u2 h1s h2s now s) :
    Inv k1 k2 u1 u2 h1s h2s now (run resolver now s sched) := by
  induction sched generalizing s with
  | nil => exact hinv
  | cons w ws ih =>
      exact ih (step resolver now s w)
        (inv_step_preserved resolver now k1 k2 u1 u2 h1s h2s info1 info2
          hr1 hp1 hr2 hp2 s w hinv)

/-- C3 (counterexample): two threads resolving the same uncached key under
the full interleaving (both pass the locked cache lookup before either
calls the resolver) invoke the resolver twice, not exactly once — the
lock is released around the yt-dlp call, so there is no single-flight
guarantee.  Both callers do observe the same locator. -/
theorem C3_counterexample :
    (run cResolver 0 (initSys "k" "k") [true, false, true, false, true, false]).calls = 2 ∧
    (run cResolver 0 (initSys "k" "k") [true, false, true, false, true, false]).calls ≠ 1 ∧
    (run cResolver 0 (initSys "k" "k") [true, false, true, false, true, false]).t1.pc = .done ∧
    (run cResolver 0 (initSys "k" "k") [true, false, true, false, true, false]).t2.pc = .done ∧
    (run cResolver 0 (initSys "k" "k") [true, false, true, false, true, false]).t1.result =
      some ("https://upstream/x", [("User-Agent", "ua")]) ∧
    (run cResolver 0 (initSys "k" "k") [true, false, true, false, true, false]).t2.result =
      (run cResolver 0 (initSys "k" "k") [true, false, true, false, true, false]).t1.result := by
  refine ⟨rfl, by decide, rfl, rfl, rfl, rfl⟩

/-- C3 (amended): under every interleaving of two concurrent
`_extract_stream_data` calls over the empty cache, against a resolver
that yields a locator for each key, both finished callers observe their
own key's resolved locator (hence the same locator when the keys agree,
the resolver being a function), and the resolver is invoked at least
once and at most once per caller — exactly twice when the keys differ,
but possibly twice even for a single key: the single-flight guarantee is
absent. -/
theorem C3_resolution_race (resolver : Resolver) (now : Nat) (k1 k2 u1 u2 : String)
    (h1s h2s : Headers) (info1 info2 : ExtractInfo)
    (hr1 : resolver k1 = some info1) (hp1 : resolveFromInfo info1 = some (u1, h1s))
    (hr2 : resolver k2 = some info2) (hp2 : resolveFromInfo info2 = some (u2, h2s))
    (sched : List Bool)
    (hdone1 : (run resolver now (initSys k1 k2) sched).t1.pc = .done)
    (hdone2 : (run resolver now (initSys k1 k2) sched).t2.pc = .done) :
    (run resolver now (initSys k1 k2) sched).t1.result = some (u1, h1s) ∧
    (run resolver now (initSys k1 k2) sched).t2.result = some (u2, h2s) ∧
    1 ≤ (run resolver now (initSys k1 k2) sched).calls ∧
    (run resolver now (initSys k1 k2) sched).calls ≤ 2 ∧
    (k1 ≠ k2 → (run resolver now (initSys k1 k2) sched).calls = 2) := by
  obtain ⟨hcc, ht1, ht2, hk1, hk2, hcalls, hd1, hd2⟩ :=
    inv_run resolver now k1 k2 u1 u2 h1s h2s info1 info2 hr1 hp1 hr2 hp2 sched
      (initSys k1 k2) (inv_init k1 k2 u1 u2 h1s h2s now)
  simp only [ThreadInv, hdone1] at ht1
  simp only [ThreadInv, hdone2] at ht2
  have m1 := hd1 hdone1
  have m2 := hd2 hdone2
  refine ⟨ht1, ht2, ?_, ?_, ?_⟩
  · rcases m1 with hc | ⟨-, hc⟩
    · rw [hcalls, hc]
      cases hb : (run resolver now (initSys k1 k2) sched).t2.called <;> simp [hb]
    · rw [hcalls, hc]
      cases hb : (run resolver now (initSys k1 k2) sched).t1.called <;> simp [hb]
  · rw [hcalls]
    cases hb1 : (run resolver now (initSys k1 k2) sched).t1.called <;>
      cases hb2 : (run resolver now (initSys k1 k2) sched).t2.called <;> simp [hb1, hb2]
  · intro hne
    have hc1 : (run resolver now (initSys k1 k2) sched).t1.called = true := by
      rcases m1 with hc | ⟨he, -⟩
      · exact hc
      · exact absurd he hne
    have hc2 : (run resolver now (initSys k1 k2) sched).t2.called = true := by
      rcases m2 with hc | ⟨he, -⟩
      · exact hc
      · exact absurd he hne
    rw [hcalls, hc1, hc2]
    simp

/-- C3 witness: the amended theorem at the concrete same-key race: both
threads finish with the resolved locator and the call count lies between
1 and 2 (here: 2). -/
theorem C3_resolution_race_witness :
    (run cResolver 0 (initSys "k" "k") [false, true, false, true, false, true]).t1.result =
      some ("https://upstream/x", [("User-Agent", "ua")]) ∧
    (run cResolver 0 (initSys "k" "k") [false, true, false, true, false, true]).t2.result =
      some ("https://upstream/x", [("User-Agent", "ua")]) ∧
    1 ≤ (run cResolver 0 (initSys "k" "k") [false, true, false, true, false, true]).calls ∧
    (run cResolver 0 (initSys "k" "k") [false, true, false, true, false, true]).calls ≤ 2 := by
  have h := C3_resolution_race cResolver 0 "k" "k" "https://upstream/x" "https://upstream/x"
    [("User-Agent", "ua")] [("User-Agent", "ua")]
    { url := some "https://upstream/x", http_headers := [("User-Agent", "ua")], formats := [] }
    { url := some "https://upstream/x", http_headers := [("User-Agent", "ua")], formats := [] }
    rfl rfl rfl rfl [false, true, false, true, false, true] rfl rfl
  exact ⟨h.1, h.2.1, h.2.2.1, h.2.2.2.1⟩

end VeilPlay
